import Mathlib

/-!
Verification of `src/build.py`: a release script that bumps a project
version, reads it back from a TOML file, logs into a container registry,
builds a tagged image, pushes it, and removes it locally.

The script is embedded shallowly: every external effect (the
`bump-my-version` subprocess, the TOML file read, each docker SDK call)
is resolved by an oracle `World` describing what the outside world does,
and the script's control flow is translated function by function from the
source.  Each run yields a `Result` (normal completion, `sys.exit` code,
or an unhandled exception) together with the ordered trace of external
operations attempted.
-/

/-- The docker SDK error classes that `build.py` mentions:
`docker.errors.ImageNotFound` and `docker.errors.APIError`. -/
inductive DockerErr
  | imageNotFound
  | apiError
deriving DecidableEq, Repr

/-- An exception propagating in the Python process: a failure while
opening/parsing the TOML version file, or an uncaught docker error. -/
inductive PyErr
  | tomlError
  | docker (e : DockerErr)
deriving DecidableEq, Repr

/-- How a run of the script terminates: `exited c` models `sys.exit(c)`,
`unhandled e` models an exception reaching the top level, `done` models
falling off the end of `main` (process exit code 0). -/
inductive Result
  | exited (code : Nat)
  | unhandled (e : PyErr)
  | done
deriving DecidableEq, Repr

/-- One attempted external operation, recorded in program order. -/
inductive Event
  | bumpVersion
  | login (registry : String)
  | build (tag : String)
  | push (tag : String)
  | remove (tag : String)
  | prune
deriving DecidableEq, Repr

/-- The five `os.getenv` reads in `main`.  `none` models an unset
variable (Python `None`); `some s` models a variable set to `s`, which
may be the empty string. -/
structure Env where
  version_file : Option String
  project_name : Option String
  registry_username : Option String
  registry_password : Option String
  registry_name : Option String
deriving DecidableEq, Repr

/-- Oracle for the outside world.  `currentVersion` is the value of
`tool.bumpversion.current_version` in the version file as it stands
after the bump subprocess ran (`none`: the open/parse/key lookup
raises).  The remaining fields say whether each docker SDK call
succeeds or raises, in the order the script makes them. -/
structure World where
  currentVersion : Option String
  loginOk : Bool
  buildErr : Option DockerErr
  pushErr : Option DockerErr
  removeErr : Option DockerErr
  pruneErr : Option DockerErr
deriving DecidableEq, Repr

/-- `bump_version`: runs `bump-my-version bump patch` via
`subprocess.run`; the return code is not checked, so the call always
just contributes its event. -/
def bump_version : List Event := [Event.bumpVersion]

/-- `get_current_version`: opens the version file, parses it and returns
`parsed_toml["tool"]["bumpversion"]["current_version"]`.  Any failure
raises (there is no handler in the function). -/
def get_current_version (w : World) : Except PyErr String :=
  match w.currentVersion with
  | some v => Except.ok v
  | none => Except.error PyErr.tomlError

/-- `docker_login`: calls `client.login` inside `try/except APIError`,
returning `True` on success and `False` on a caught error. -/
def docker_login (w : World) : Bool := w.loginOk

/-- `build_image`: calls `client.images.build` with no error handling;
the event records the attempted call, the second component a raised
docker error that propagates to the caller. -/
def build_image (image_name : String) (w : World) : List Event × Option DockerErr :=
  ([Event.build image_name], w.buildErr)

/-- `push_image`: iterates `client.images.push` inside
`try/except APIError`; whether the push raises or not, the error is
caught and only logged, so nothing propagates. -/
def push_image (image_name : String) (w : World) : List Event :=
  match w.pushErr with
  | some _ => [Event.push image_name]
  | none => [Event.push image_name]

/-- The `try` body of `remove_image`: `client.images.remove` followed by
`client.images.prune`.  If the remove raises, the prune is never
reached; if the prune raises, both calls were attempted. -/
def remove_attempt (image_name : String) (w : World) : List Event × Option DockerErr :=
  match w.removeErr with
  | some e => ([Event.remove image_name], some e)
  | none =>
    match w.pruneErr with
    | some e => ([Event.remove image_name, Event.prune], some e)
    | none => ([Event.remove image_name, Event.prune], none)

/-- `remove_image`: the `try` body with its two handlers,
`except ImageNotFound` and `except APIError`, both of which only log,
so no error ever propagates. -/
def remove_image (image_name : String) (w : World) : List Event × Option PyErr :=
  match remove_attempt image_name w with
  | (evs, none) => (evs, none)
  | (evs, some DockerErr.imageNotFound) => (evs, none)
  | (evs, some DockerErr.apiError) => (evs, none)

/-- `main`: reads the five environment variables, exits with code 1 if
any is `None`, then bumps the version, re-reads it, logs in (exiting
with code 1 on failure), builds, pushes and removes the image
`f"{registry_name}/{project_name}:{current_version}"`. -/
def runMain (env : Env) (w : World) : Result × List Event :=
  match env.version_file, env.project_name, env.registry_username,
        env.registry_password, env.registry_name with
  | some _, some project_name, some _, some _, some registry_name =>
    (match get_current_version w with
     | Except.error e => (Result.unhandled e, bump_version)
     | Except.ok current_version =>
       let registry_url := "https://" ++ registry_name ++ "/"
       let evs1 := bump_version ++ [Event.login registry_url]
       if docker_login w then
         let image_name := registry_name ++ "/" ++ project_name ++ ":" ++ current_version
         match build_image image_name w with
         | (evsB, some e) => (Result.unhandled (PyErr.docker e), evs1 ++ evsB)
         | (evsB, none) =>
           let evsP := push_image image_name w
           let evsR := (remove_image image_name w).1
           (Result.done, evs1 ++ evsB ++ evsP ++ evsR)
       else (Result.exited 1, evs1))
  | _, _, _, _, _ => (Result.exited 1, [])

/-- The tags of all `build` events in a trace, in order. -/
def buildTags (evs : List Event) : List String :=
  evs.filterMap fun e => match e with | Event.build t => some t | _ => none

/-- The tags of all `push` events in a trace, in order. -/
def pushTags (evs : List Event) : List String :=
  evs.filterMap fun e => match e with | Event.push t => some t | _ => none

/-- The tags of all `remove` events in a trace, in order. -/
def removeTags (evs : List Event) : List String :=
  evs.filterMap fun e => match e with | Event.remove t => some t | _ => none

lemma push_image_eq (image_name : String) (w : World) :
    push_image image_name w = [Event.push image_name] := by
  unfold push_image; cases w.pushErr <;> rfl

lemma remove_image_fst (image_name : String) (w : World) :
    (remove_image image_name w).1 = (remove_attempt image_name w).1 := by
  unfold remove_image
  rcases h : remove_attempt image_name w with ⟨evs, e⟩
  rcases e with _ | e
  · rfl
  · cases e <;> rfl

lemma remove_image_snd (image_name : String) (w : World) :
    (remove_image image_name w).2 = none := by
  unfold remove_image
  rcases h : remove_attempt image_name w with ⟨evs, e⟩
  rcases e with _ | e
  · rfl
  · cases e <;> rfl

/-- A run in which every external step succeeds up to the build, fully
evaluated: the shape of the trace up to cleanup. -/
lemma runMain_reaches_cleanup (vf pn u p rn v : String) (w : World)
    (hv : w.currentVersion = some v) (hl : w.loginOk = true)
    (hb : w.buildErr = none) :
    runMain ⟨some vf, some pn, some u, some p, some rn⟩ w =
      (Result.done,
        [Event.bumpVersion, Event.login ("https://" ++ rn ++ "/"),
         Event.build (rn ++ "/" ++ pn ++ ":" ++ v),
         Event.push (rn ++ "/" ++ pn ++ ":" ++ v)] ++
        (remove_attempt (rn ++ "/" ++ pn ++ ":" ++ v) w).1) := by
  unfold runMain get_current_version docker_login build_image bump_version
  rw [hv, hl, hb]
  simp [push_image_eq, remove_image_fst]

lemma buildTags_append (l1 l2 : List Event) :
    buildTags (l1 ++ l2) = buildTags l1 ++ buildTags l2 := by
  simp [buildTags, List.filterMap_append]

lemma pushTags_append (l1 l2 : List Event) :
    pushTags (l1 ++ l2) = pushTags l1 ++ pushTags l2 := by
  simp [pushTags, List.filterMap_append]

lemma removeTags_append (l1 l2 : List Event) :
    removeTags (l1 ++ l2) = removeTags l1 ++ removeTags l2 := by
  simp [removeTags, List.filterMap_append]

lemma removeTags_remove_attempt (image_name : String) (w : World) :
    removeTags (remove_attempt image_name w).1 = [image_name] := by
  unfold remove_attempt removeTags
  rcases w.removeErr with _ | e
  · rcases w.pruneErr with _ | e <;> rfl
  · rfl

lemma buildTags_remove_attempt (image_name : String) (w : World) :
    buildTags (remove_attempt image_name w).1 = [] := by
  unfold remove_attempt buildTags
  rcases w.removeErr with _ | e
  · rcases w.pruneErr with _ | e <;> rfl
  · rfl

lemma pushTags_remove_attempt (image_name : String) (w : World) :
    pushTags (remove_attempt image_name w).1 = [] := by
  unfold remove_attempt pushTags
  rcases w.removeErr with _ | e
  · rcases w.pruneErr with _ | e <;> rfl
  · rfl

/-- C1: with all five environment variables set, the version file
parsing to `v`, the login accepted and the build succeeding, the tag
used by the build, push and removal calls is exactly
`registry_name ++ "/" ++ project_name ++ ":" ++ v`, and no other tag is
ever used by those calls. -/
theorem c1_image_tag_exact (vf pn u p rn v : String) (w : World)
    (hv : w.currentVersion = some v) (hl : w.loginOk = true)
    (hb : w.buildErr = none) :
    buildTags (runMain ⟨some vf, some pn, some u, some p, some rn⟩ w).2 =
        [rn ++ "/" ++ pn ++ ":" ++ v] ∧
    pushTags (runMain ⟨some vf, some pn, some u, some p, some rn⟩ w).2 =
        [rn ++ "/" ++ pn ++ ":" ++ v] ∧
    removeTags (runMain ⟨some vf, some pn, some u, some p, some rn⟩ w).2 =
        [rn ++ "/" ++ pn ++ ":" ++ v] := by
  rw [runMain_reaches_cleanup vf pn u p rn v w hv hl hb]
  refine ⟨?_, ?_, ?_⟩
  · rw [buildTags_append, buildTags_remove_attempt]
    rfl
  · rw [pushTags_append, pushTags_remove_attempt]
    rfl
  · rw [removeTags_append, removeTags_remove_attempt]
    rfl

/-- Witness for C1 at a concrete configuration. -/
theorem c1_image_tag_exact_witness :
    buildTags (runMain ⟨some ".bumpversion.toml", some "svc", some "u", some "p",
        some "reg.example.com"⟩
        ⟨some "1.2.3", true, none, none, none, none⟩).2 =
      ["reg.example.com/svc:1.2.3"] ∧
    pushTags (runMain ⟨some ".bumpversion.toml", some "svc", some "u", some "p",
        some "reg.example.com"⟩
        ⟨some "1.2.3", true, none, none, none, none⟩).2 =
      ["reg.example.com/svc:1.2.3"] ∧
    removeTags (runMain ⟨some ".bumpversion.toml", some "svc", some "u", some "p",
        some "reg.example.com"⟩
        ⟨some "1.2.3", true, none, none, none, none⟩).2 =
      ["reg.example.com/svc:1.2.3"] :=
  c1_image_tag_exact ".bumpversion.toml" "svc" "u" "p" "reg.example.com" "1.2.3"
    ⟨some "1.2.3", true, none, none, none, none⟩ rfl rfl rfl

/-- C2: if any of the five required environment variables is unset, the
run exits with code 1 and the trace is empty: no bump, no login, no
build, no push, no removal is attempted. -/
theorem c2_missing_var_exits_early (env : Env) (w : World)
    (h : env.version_file = none ∨ env.project_name = none ∨
         env.registry_username = none ∨ env.registry_password = none ∨
         env.registry_name = none) :
    runMain env w = (Result.exited 1, []) := by
  obtain ⟨vf, pn, u, p, rn⟩ := env
  unfold runMain
  rcases vf with _ | vf <;> rcases pn with _ | pn <;> rcases u with _ | u <;>
    rcases p with _ | p <;> rcases rn with _ | rn <;> simp_all

/-- Witness for C2: `PROJECT_NAME` unset. -/
theorem c2_missing_var_exits_early_witness :
    runMain ⟨some ".bumpversion.toml", none, some "u", some "p", some "reg"⟩
        ⟨some "1.2.3", true, none, none, none, none⟩ = (Result.exited 1, []) :=
  c2_missing_var_exits_early
    ⟨some ".bumpversion.toml", none, some "u", some "p", some "reg"⟩
    ⟨some "1.2.3", true, none, none, none, none⟩ (Or.inr (Or.inl rfl))

/-- C3: once the run reaches the push step (all variables set, version
read, login accepted, build succeeded), the run completes normally for
every push outcome — a push error is caught, never terminating the
process — the cleanup (removal) is attempted afterwards, and the whole
run is identical to the run in which the push succeeds. -/
theorem c3_push_failure_caught_cleanup_runs (vf pn u p rn v : String) (w : World)
    (hv : w.currentVersion = some v) (hl : w.loginOk = true)
    (hb : w.buildErr = none) :
    (runMain ⟨some vf, some pn, some u, some p, some rn⟩ w).1 = Result.done ∧
    pushTags (runMain ⟨some vf, some pn, some u, some p, some rn⟩ w).2 =
        [rn ++ "/" ++ pn ++ ":" ++ v] ∧
    removeTags (runMain ⟨some vf, some pn, some u, some p, some rn⟩ w).2 =
        [rn ++ "/" ++ pn ++ ":" ++ v] ∧
    runMain ⟨some vf, some pn, some u, some p, some rn⟩ w =
      runMain ⟨some vf, some pn, some u, some p, some rn⟩
        { w with pushErr := none } := by
  obtain ⟨cv, lo, be, pe, re, pre⟩ := w
  rw [runMain_reaches_cleanup vf pn u p rn v _ hv hl hb,
    runMain_reaches_cleanup vf pn u p rn v ⟨cv, lo, be, none, re, pre⟩ hv hl hb]
  refine ⟨rfl, ?_, ?_, rfl⟩
  · rw [pushTags_append, pushTags_remove_attempt]
    rfl
  · rw [removeTags_append, removeTags_remove_attempt]
    rfl

/-- Witness for C3, with the push raising an `APIError`. -/
theorem c3_push_failure_caught_cleanup_runs_witness :
    (runMain ⟨some "f", some "svc", some "u", some "p", some "reg"⟩
        ⟨some "1.2.3", true, none, some DockerErr.apiError, none, none⟩).1 =
      Result.done ∧
    pushTags (runMain ⟨some "f", some "svc", some "u", some "p", some "reg"⟩
        ⟨some "1.2.3", true, none, some DockerErr.apiError, none, none⟩).2 =
      ["reg/svc:1.2.3"] ∧
    removeTags (runMain ⟨some "f", some "svc", some "u", some "p", some "reg"⟩
        ⟨some "1.2.3", true, none, some DockerErr.apiError, none, none⟩).2 =
      ["reg/svc:1.2.3"] ∧
    runMain ⟨some "f", some "svc", some "u", some "p", some "reg"⟩
        ⟨some "1.2.3", true, none, some DockerErr.apiError, none, none⟩ =
      runMain ⟨some "f", some "svc", some "u", some "p", some "reg"⟩
        { currentVersion := some "1.2.3", loginOk := true, buildErr := none,
          pushErr := none, removeErr := none, pruneErr := none } :=
  c3_push_failure_caught_cleanup_runs "f" "svc" "u" "p" "reg" "1.2.3"
    ⟨some "1.2.3", true, none, some DockerErr.apiError, none, none⟩ rfl rfl rfl

/-- C4: with the variables set and the version read, a rejected login
makes the run exit with code 1 having attempted only the bump and the
login call: no build, push or removal appears in the trace. -/
theorem c4_login_failure_exits (vf pn u p rn v : String) (w : World)
    (hv : w.currentVersion = some v) (hl : w.loginOk = false) :
    runMain ⟨some vf, some pn, some u, some p, some rn⟩ w =
      (Result.exited 1,
        [Event.bumpVersion, Event.login ("https://" ++ rn ++ "/")]) := by
  unfold runMain get_current_version docker_login bump_version
  rw [hv, hl]
  simp

/-- Witness for C4. -/
theorem c4_login_failure_exits_witness :
    runMain ⟨some "f", some "svc", some "u", some "p", some "reg"⟩
        ⟨some "1.2.3", false, none, none, none, none⟩ =
      (Result.exited 1, [Event.bumpVersion, Event.login "https://reg/"]) :=
  c4_login_failure_exits "f" "svc" "u" "p" "reg" "1.2.3"
    ⟨some "1.2.3", false, none, none, none, none⟩ rfl rfl

/-- C5: a build error is not caught anywhere: the run terminates as an
unhandled exception right after the attempted build call, and neither a
push nor a removal appears in the trace. -/
theorem c5_build_failure_unhandled (vf pn u p rn v : String) (w : World)
    (e : DockerErr) (hv : w.currentVersion = some v) (hl : w.loginOk = true)
    (hb : w.buildErr = some e) :
    runMain ⟨some vf, some pn, some u, some p, some rn⟩ w =
      (Result.unhandled (PyErr.docker e),
        [Event.bumpVersion, Event.login ("https://" ++ rn ++ "/"),
         Event.build (rn ++ "/" ++ pn ++ ":" ++ v)]) := by
  unfold runMain get_current_version docker_login build_image bump_version
  rw [hv, hl, hb]
  simp

/-- Witness for C5. -/
theorem c5_build_failure_unhandled_witness :
    runMain ⟨some "f", some "svc", some "u", some "p", some "reg"⟩
        ⟨some "1.2.3", true, some DockerErr.apiError, none, none, none⟩ =
      (Result.unhandled (PyErr.docker DockerErr.apiError),
        [Event.bumpVersion, Event.login "https://reg/",
         Event.build "reg/svc:1.2.3"]) :=
  c5_build_failure_unhandled "f" "svc" "u" "p" "reg" "1.2.3"
    ⟨some "1.2.3", true, some DockerErr.apiError, none, none, none⟩
    DockerErr.apiError rfl rfl rfl

/-- C6 counterexample: when the version file's `current_version` field
holds the empty string, `get_current_version` returns the empty string
and the pipeline continues all the way to normal completion, building
the tag `"reg/svc:"` — contradicting the claim that the version
resolution never returns an empty string and then continues. -/
theorem c6_counterexample_empty_version :
    get_current_version ⟨some "", true, none, none, none, none⟩ =
      Except.ok "" ∧
    (runMain ⟨some "f", some "svc", some "u", some "p", some "reg"⟩
        ⟨some "", true, none, none, none, none⟩).1 = Result.done ∧
    buildTags (runMain ⟨some "f", some "svc", some "u", some "p", some "reg"⟩
        ⟨some "", true, none, none, none, none⟩).2 = ["reg/svc:"] := by
  refine ⟨rfl, rfl, ?_⟩
  decide

/-- C6 as amended: the version-resolution step either terminates the run
with an unhandled error (when the file cannot be read, parsed, or lacks
the key) or yields exactly the string stored in the file — possibly
empty — after which the pipeline continues to the login call. -/
theorem c6_version_resolution_amended (vf pn u p rn : String) (w : World) :
    (w.currentVersion = none →
      runMain ⟨some vf, some pn, some u, some p, some rn⟩ w =
        (Result.unhandled PyErr.tomlError, [Event.bumpVersion])) ∧
    (∀ v, w.currentVersion = some v →
      Event.login ("https://" ++ rn ++ "/") ∈
        (runMain ⟨some vf, some pn, some u, some p, some rn⟩ w).2) := by
  constructor
  · intro hv
    unfold runMain get_current_version bump_version
    rw [hv]
  · intro v hv
    unfold runMain get_current_version docker_login build_image bump_version
    rw [hv]
    rcases hl : w.loginOk with _ | _
    · simp
    · rcases hb : w.buildErr with _ | e
      · simp
      · simp

/-- Witness for C6 as amended: the error branch at a concrete world. -/
theorem c6_version_resolution_amended_witness :
    runMain ⟨some "f", some "svc", some "u", some "p", some "reg"⟩
        ⟨none, true, none, none, none, none⟩ =
      (Result.unhandled PyErr.tomlError, [Event.bumpVersion]) :=
  (c6_version_resolution_amended "f" "svc" "u" "p" "reg"
    ⟨none, true, none, none, none, none⟩).1 rfl

/-- Modelled from the spec: the repository's second, dual-mode script is
not under `src/` (only `build.py` is).  Per the spec it takes a CLI flag
`--environment` (default `production`) and an optional `--version`.
Production mode invokes the version-bump command against the config
file and re-reads the updated version; non-production mode with an
explicit version uses the caller-supplied string verbatim, with no bump
and no file mutation.  The `bumpVersion` event is the sole operation
that mutates the version config file, so a trace without it mutates no
file. -/
def resolve_version_dual (environment : String) (explicit_version : Option String)
    (w : World) : Option String × List Event :=
  if environment = "production" then
    (w.currentVersion, [Event.bumpVersion])
  else
    match explicit_version with
    | some v => (some v, [])
    | none => (w.currentVersion, [])

/-- C7: in non-production mode with an explicit version supplied, the
version-bump command is never invoked (the trace is empty, so the config
file is never mutated) and the caller-supplied version string is used
verbatim. -/
theorem c7_nonprod_explicit_version_verbatim (environment v : String) (w : World)
    (h : environment ≠ "production") :
    resolve_version_dual environment (some v) w = (some v, []) := by
  unfold resolve_version_dual
  simp [h]

/-- Witness for C7 at environment `staging`. -/
theorem c7_nonprod_explicit_version_verbatim_witness :
    resolve_version_dual "staging" (some "9.9.9")
        ⟨some "1.2.3", true, none, none, none, none⟩ = (some "9.9.9", []) :=
  c7_nonprod_explicit_version_verbatim "staging" "9.9.9"
    ⟨some "1.2.3", true, none, none, none, none⟩ (by decide)

/-- C8: when the image to clean up does not exist locally
(`client.images.remove` raises `ImageNotFound`), `remove_image`
completes without propagating any exception and the whole run still
terminates normally — the exit code is unaffected. -/
theorem c8_cleanup_missing_image_benign (vf pn u p rn v : String) (w : World)
    (hv : w.currentVersion = some v) (hl : w.loginOk = true)
    (hb : w.buildErr = none)
    (_hr : w.removeErr = some DockerErr.imageNotFound) :
    (remove_image (rn ++ "/" ++ pn ++ ":" ++ v) w).2 = none ∧
    (runMain ⟨some vf, some pn, some u, some p, some rn⟩ w).1 = Result.done := by
  refine ⟨remove_image_snd _ w, ?_⟩
  rw [runMain_reaches_cleanup vf pn u p rn v w hv hl hb]

/-- Witness for C8. -/
theorem c8_cleanup_missing_image_benign_witness :
    (remove_image ("reg" ++ "/" ++ "svc" ++ ":" ++ "1.2.3")
        ⟨some "1.2.3", true, none, none, some DockerErr.imageNotFound, none⟩).2 =
      none ∧
    (runMain ⟨some "f", some "svc", some "u", some "p", some "reg"⟩
        ⟨some "1.2.3", true, none, none, some DockerErr.imageNotFound,
          none⟩).1 = Result.done :=
  c8_cleanup_missing_image_benign "f" "svc" "u" "p" "reg" "1.2.3"
    ⟨some "1.2.3", true, none, none, some DockerErr.imageNotFound, none⟩
    rfl rfl rfl rfl

/-- C9: a required variable set to the empty string still passes the
`is None` check — the run always starts with the bump, whatever the five
(set) values are — and the pipeline proceeds to build a tag assembled
from the possibly-empty values, e.g. `"<registry>/:<version>"` when the
project name is empty. -/
theorem c9_empty_string_passes_check (vf pn u p rn : String) (w : World) :
    ((runMain ⟨some vf, some pn, some u, some p, some rn⟩ w).2).head? =
      some Event.bumpVersion ∧
    (∀ v, w.currentVersion = some v → w.loginOk = true →
      buildTags (runMain ⟨some vf, some pn, some u, some p, some rn⟩ w).2 =
        [rn ++ "/" ++ pn ++ ":" ++ v]) := by
  constructor
  · unfold runMain get_current_version docker_login build_image bump_version
    rcases w.currentVersion with _ | v
    · rfl
    · rcases w.loginOk with _ | _
      · simp
      · rcases w.buildErr with _ | e
        · simp [push_image_eq]
        · simp
  · intro v hv hl
    rcases hb : w.buildErr with _ | e
    · rw [runMain_reaches_cleanup vf pn u p rn v w hv hl hb]
      rw [buildTags_append, buildTags_remove_attempt]
      rfl
    · unfold runMain get_current_version docker_login build_image bump_version
      rw [hv, hl, hb]
      simp [buildTags]

/-- Witness for C9: every variable set to the empty string. -/
theorem c9_empty_string_passes_check_witness :
    ((runMain ⟨some "", some "", some "", some "", some ""⟩
        ⟨some "1.0.0", true, none, none, none, none⟩).2).head? =
      some Event.bumpVersion ∧
    buildTags (runMain ⟨some "", some "", some "", some "", some ""⟩
        ⟨some "1.0.0", true, none, none, none, none⟩).2 =
      ["" ++ "/" ++ "" ++ ":" ++ "1.0.0"] :=
  ⟨(c9_empty_string_passes_check "" "" "" "" ""
      ⟨some "1.0.0", true, none, none, none, none⟩).1,
   (c9_empty_string_passes_check "" "" "" "" ""
      ⟨some "1.0.0", true, none, none, none, none⟩).2 "1.0.0" rfl rfl⟩

/-- C10: inside the cleanup step, the prune runs only after the removal
succeeded: if `client.images.remove` raises, the trace of `remove_image`
is just the attempted removal — no prune — and still nothing propagates;
if the removal succeeds, the prune is attempted. -/
theorem c10_prune_only_after_remove_success (image_name : String) (w : World) :
    ((∃ e, w.removeErr = some e) →
      remove_image image_name w = ([Event.remove image_name], none)) ∧
    (w.removeErr = none → Event.prune ∈ (remove_image image_name w).1) := by
  obtain ⟨cv, lo, be, pe, re, pre⟩ := w
  constructor
  · rintro ⟨e, he⟩
    rcases re with _ | e2
    · simp at he
    · unfold remove_image remove_attempt
      cases e2 <;> rfl
  · intro h
    rcases re with _ | e2
    · unfold remove_image remove_attempt
      rcases pre with _ | e3
      · simp
      · cases e3 <;> simp
    · simp at h

/-- Witness for C10: a removal that raises `APIError`. -/
theorem c10_prune_only_after_remove_success_witness :
    remove_image "reg/svc:1.2.3"
        ⟨some "1.2.3", true, none, none, some DockerErr.apiError, none⟩ =
      ([Event.remove "reg/svc:1.2.3"], none) :=
  (c10_prune_only_after_remove_success "reg/svc:1.2.3"
      ⟨some "1.2.3", true, none, none, some DockerErr.apiError, none⟩).1
    ⟨DockerErr.apiError, rfl⟩
